import Mathlib

/-!
Verification of the acne-diagnosis backend against its design document.

The Python sources are shallowly embedded: strings are Lean `String`s
(operated on through their character lists so that everything computes),
Python `int` is `ℤ`, and the floating-point quantities that the lesion
estimator and the classifier manipulate are idealised as `ℚ`.  Images are
abstracted by the one number the code derives from them (the grayscale
pixel variance).  Fallible endpoint code returns `Except`, and the
database behind the prescription endpoint is a pair of lists.
-/

/-- Python `str.lower()` (the strings in this code base are ASCII). -/
def pyLower (s : String) : String := ⟨s.data.map Char.toLower⟩

/-- Python `str.upper()`. -/
def pyUpper (s : String) : String := ⟨s.data.map Char.toUpper⟩

/-- Python substring containment `needle in hay` on character lists. -/
def containsSub (needle : List Char) : List Char → Bool
  | [] => needle.isEmpty
  | c :: rest => needle.isPrefixOf (c :: rest) || containsSub needle rest

/-- Python `needle in hay` for strings. -/
def strContains (needle hay : String) : Bool := containsSub needle.data hay.data

/-- `replaceFuel old new fuel s`: replace each non-overlapping occurrence of
`old` in `s` by `new`, scanning left to right; `fuel ≥ s.length` makes the
recursion total and never runs out when `old ≠ []`. -/
def replaceFuel (old new : List Char) : Nat → List Char → List Char
  | _, [] => []
  | 0, s => s
  | fuel+1, c :: rest =>
    if old.isPrefixOf (c :: rest) then new ++ replaceFuel old new fuel ((c :: rest).drop old.length)
    else c :: replaceFuel old new fuel rest

/-- Python `s.replace(old, new)`: every non-overlapping occurrence of `old`
is replaced by `new`; an empty `old` splices `new` between all characters,
as Python does. -/
def pyReplace (s old new : String) : String :=
  match old.data with
  | [] => ⟨s.data.foldr (fun c acc => new.data ++ c :: acc) new.data⟩
  | _ => ⟨replaceFuel old.data new.data s.data.length s.data⟩

/-- Python `int(q)` on a real quantity: truncation toward zero. -/
def pyInt (q : ℚ) : ℤ := if 0 ≤ q then ⌊q⌋ else ⌈q⌉

/-- The allergy test of `NLPPrescriber.generate`:
`any(a.lower() in med["name"].lower() for a in allergies)`. -/
def anyAllergyMatch (allergies : List String) (name : String) : Bool :=
  allergies.any fun a => strContains (pyLower a) (pyLower name)

/-! ## Lesion estimator (`AcneClassifier.detect_lesions`) -/

/-- `AcneClassifier.SEVERITY_LABELS`. -/
def SEVERITY_LABELS : List String := ["clear", "mild", "moderate", "severe", "very_severe"]

/-- The five lesion-type counts `detect_lesions` returns. -/
structure LesionCounts where
  comedones : ℤ
  papules : ℤ
  pustules : ℤ
  nodules : ℤ
  cysts : ℤ
deriving DecidableEq

/-- `AcneClassifier.detect_lesions`, with the image abstracted by its
grayscale pixel variance.  `scale = min(variance / 1000, 1.0)` and each
branch is the literal dictionary the Python returns. -/
def AcneClassifier.detect_lesions (variance : ℚ) (severity : String) : LesionCounts :=
  let scale : ℚ := min (variance / 1000) 1
  if severity = "clear" then
    ⟨0, 0, 0, 0, 0⟩
  else if severity = "mild" then
    ⟨pyInt (5 * scale), pyInt (3 * scale), pyInt (1 * scale), 0, 0⟩
  else if severity = "moderate" then
    ⟨pyInt (15 * scale), pyInt (10 * scale), pyInt (5 * scale), 0, 0⟩
  else if severity = "severe" then
    ⟨pyInt (25 * scale), pyInt (20 * scale), pyInt (15 * scale), pyInt (3 * scale), 0⟩
  else if severity = "very_severe" then
    ⟨pyInt (30 * scale), pyInt (25 * scale), pyInt (20 * scale), pyInt (10 * scale), pyInt (5 * scale)⟩
  else
    ⟨pyInt (20 * scale), pyInt (15 * scale), pyInt (8 * scale),
      if 1/2 < scale then pyInt (2 * scale) else 0,
      if 7/10 < scale then pyInt (1 * scale) else 0⟩

/-- The unscaled multiplier table of `detect_lesions`, read off its five
severity branches (the last value covers the default branch). -/
def baseCounts (severity : String) : LesionCounts :=
  if severity = "clear" then ⟨0, 0, 0, 0, 0⟩
  else if severity = "mild" then ⟨5, 3, 1, 0, 0⟩
  else if severity = "moderate" then ⟨15, 10, 5, 0, 0⟩
  else if severity = "severe" then ⟨25, 20, 15, 3, 0⟩
  else if severity = "very_severe" then ⟨30, 25, 20, 10, 5⟩
  else ⟨20, 15, 8, 2, 1⟩

/-- Scaling a base five-tuple the way `detect_lesions` scales its branch
values: each entry is `int(base * min(variance / 1000, 1.0))`. -/
def scaleCounts (b : LesionCounts) (variance : ℚ) : LesionCounts :=
  let scale : ℚ := min (variance / 1000) 1
  ⟨pyInt (b.comedones * scale), pyInt (b.papules * scale), pyInt (b.pustules * scale),
    pyInt (b.nodules * scale), pyInt (b.cysts * scale)⟩

/-- Rank of a severity label in the order clear < mild < moderate < severe
< very_severe. -/
def sevRank (severity : String) : ℕ :=
  if severity = "clear" then 0
  else if severity = "mild" then 1
  else if severity = "moderate" then 2
  else if severity = "severe" then 3
  else 4

/-- Pointwise order on lesion-count tuples. -/
def countsLE (a b : LesionCounts) : Prop :=
  a.comedones ≤ b.comedones ∧ a.papules ≤ b.papules ∧ a.pustules ≤ b.pustules ∧
    a.nodules ≤ b.nodules ∧ a.cysts ≤ b.cysts

/-- All five counts non-negative. -/
def countsNonneg (a : LesionCounts) : Prop :=
  0 ≤ a.comedones ∧ 0 ≤ a.papules ∧ 0 ≤ a.pustules ∧ 0 ≤ a.nodules ∧ 0 ≤ a.cysts

instance : DecidablePred countsNonneg := fun a => by unfold countsNonneg; infer_instance

instance (a : LesionCounts) : Decidable (countsLE a b) := by unfold countsLE; infer_instance

/-! ## Severity classification, Backend A (`AcneClassifier.classify`, Keras path) -/

/-- First index of the maximum, `np.argmax` (ties keep the earlier index). -/
def npArgmaxAux : List ℚ → ℚ → ℕ → ℕ → ℕ
  | [], _, _, best => best
  | q :: rest, bestV, i, best =>
    if bestV < q then npArgmaxAux rest q (i + 1) i else npArgmaxAux rest bestV (i + 1) best

/-- `np.argmax` on a list of rationals (0 on the empty list). -/
def npArgmax : List ℚ → ℕ
  | [] => 0
  | q :: rest => npArgmaxAux rest q 1 0

/-- The seven hand-set 5-way probability vectors of `classify`, in threshold
order (acne probability ≥ 0.5, ≥ 0.35, ≥ 0.25, ≥ 0.15, ≥ 0.10, ≥ 0.05, else). -/
def SEVERITY_PROB_TABLE : List (List ℚ) :=
  [[1/100, 4/100, 15/100, 35/100, 45/100],
   [2/100, 8/100, 20/100, 50/100, 20/100],
   [5/100, 15/100, 40/100, 30/100, 10/100],
   [10/100, 30/100, 45/100, 12/100, 3/100],
   [20/100, 50/100, 25/100, 4/100, 1/100],
   [30/100, 50/100, 15/100, 4/100, 1/100],
   [80/100, 15/100, 4/100, 8/1000, 2/1000]]

/-- The threshold ladder of the Keras branch of `classify`: the hand-set
vector chosen from the acne-class probability. -/
def severityProbsOf (acne_prob : ℚ) : List ℚ :=
  if 1/2 ≤ acne_prob then [1/100, 4/100, 15/100, 35/100, 45/100]
  else if 35/100 ≤ acne_prob then [2/100, 8/100, 20/100, 50/100, 20/100]
  else if 25/100 ≤ acne_prob then [5/100, 15/100, 40/100, 30/100, 10/100]
  else if 15/100 ≤ acne_prob then [10/100, 30/100, 45/100, 12/100, 3/100]
  else if 10/100 ≤ acne_prob then [20/100, 50/100, 25/100, 4/100, 1/100]
  else if 5/100 ≤ acne_prob then [30/100, 50/100, 15/100, 4/100, 1/100]
  else [80/100, 15/100, 4/100, 8/1000, 2/1000]

/-- `probs = np.maximum(probs, 0); probs = probs / (probs.sum() + 1e-8)`. -/
def normalizeProbs (v : List ℚ) : List ℚ :=
  let clipped := v.map fun q => max q 0
  clipped.map fun q => q / (clipped.sum + 1/100000000)

/-- The tail of the Keras branch of `classify`: normalize the chosen vector,
take the argmax label and the value there. -/
def classifyFinalize (v : List ℚ) : String × ℚ :=
  let n := normalizeProbs v
  let idx := npArgmax n
  (SEVERITY_LABELS.getD idx "", n.getD idx 0)

/-- `AcneClassifier.classify` on the Keras backend: `disease_probs` is the
23-class model output, its entry 0 (`ACNE_CLASS_INDEX`) is read off and
pushed through the threshold ladder; the result is the reported
(severity, confidence) pair. -/
def AcneClassifier.classify (disease_probs : List ℚ) : String × ℚ :=
  classifyFinalize (severityProbsOf (disease_probs.getD 0 0))

/-! ## Prescriber (`app/ml/nlp_prescriber.py`) -/

/-- One structured medication entry of `TREATMENT_DB`. -/
structure MedEntry where
  name : String
  dosage : String
  frequency : String
  duration : String
  instructions : String
  warnings : List String
deriving DecidableEq

/-- A `TREATMENT_DB` list element: either a bare string (the `"clear"`
topicals) or a structured entry — `generate` branches on `isinstance(med, dict)`. -/
inductive TopEntry where
  | plain (s : String)
  | entry (m : MedEntry)
deriving DecidableEq

/-- Whether a `TREATMENT_DB` element is a structured (dict) entry. -/
def TopEntry.isEntry : TopEntry → Bool
  | .plain _ => false
  | .entry _ => true

/-- One severity bucket of `TREATMENT_DB`. -/
structure Guidelines where
  topical : List TopEntry
  oral : List TopEntry
  lifestyle : List String
deriving DecidableEq

/-- `TREATMENT_DB["clear"]`. -/
def TREATMENT_DB_clear : Guidelines :=
  ⟨[.plain "Gentle cleanser", .plain "Non-comedogenic moisturizer"], [],
   ["Maintain skincare routine", "Use sunscreen daily"]⟩

/-- `TREATMENT_DB["mild"]`. -/
def TREATMENT_DB_mild : Guidelines :=
  ⟨[.entry ⟨"Benzoyl Peroxide 2.5%", "Apply thin layer", "Once daily at night", "8 weeks",
      "Start every other day, increase to daily.", ["May bleach fabrics"]⟩,
    .entry ⟨"Salicylic Acid 2%", "Apply to affected areas", "Twice daily", "8 weeks",
      "Use as cleanser or leave-on.", ["May cause dryness"]⟩], [],
   ["Gentle cleansing twice daily", "Avoid touching face", "Use non-comedogenic products"]⟩

/-- `TREATMENT_DB["moderate"]`. -/
def TREATMENT_DB_moderate : Guidelines :=
  ⟨[.entry ⟨"Benzoyl Peroxide 5%", "Apply thin layer", "Once daily at night", "12 weeks",
      "Apply to affected areas after cleansing.", ["May bleach fabrics", "Avoid eye area"]⟩,
    .entry ⟨"Adapalene 0.1%", "Apply pea-sized amount", "Once daily at night", "12 weeks",
      "Apply 20 min after washing. Expect initial worsening.",
      ["Avoid sun exposure", "Not for pregnancy"]⟩], [],
   ["Gentle cleansing twice daily", "Oil-free products", "Change pillowcases frequently",
    "Reduce dairy intake"]⟩

/-- `TREATMENT_DB["severe"]`. -/
def TREATMENT_DB_severe : Guidelines :=
  ⟨[.entry ⟨"Benzoyl Peroxide 5%", "Apply thin layer", "Once daily", "12 weeks",
      "Apply after cleansing.", ["May bleach fabrics"]⟩,
    .entry ⟨"Clindamycin 1%", "Apply thin layer", "Twice daily", "8 weeks",
      "Use with benzoyl peroxide.", ["Do not use alone long-term"]⟩],
   [.entry ⟨"Doxycycline 100mg", "100mg", "Twice daily", "3 months",
      "Take with food and water.", ["Avoid sun", "Not for pregnancy"]⟩],
   ["Dermatologist follow-up recommended", "Sun protection critical", "Monitor for side effects"]⟩

/-- `TREATMENT_DB["very_severe"]`. -/
def TREATMENT_DB_very_severe : Guidelines :=
  ⟨[.entry ⟨"Benzoyl Peroxide 5%", "Apply thin layer", "Once daily", "Ongoing",
      "Supportive therapy.", ["May bleach fabrics"]⟩],
   [.entry ⟨"Isotretinoin (Accutane)", "As prescribed by specialist", "Once daily", "4-6 months",
      "REQUIRES SPECIALIST. Monthly monitoring.",
      ["Severe birth defects", "Liver monitoring required", "Depression risk"]⟩],
   ["MANDATORY dermatologist care", "Monthly blood tests", "Pregnancy prevention required",
    "No waxing or laser"]⟩

/-- `TREATMENT_DB` as a keyed lookup. -/
def TREATMENT_DB (severity : String) : Option Guidelines :=
  if severity = "clear" then some TREATMENT_DB_clear
  else if severity = "mild" then some TREATMENT_DB_mild
  else if severity = "moderate" then some TREATMENT_DB_moderate
  else if severity = "severe" then some TREATMENT_DB_severe
  else if severity = "very_severe" then some TREATMENT_DB_very_severe
  else none

/-- A medication as `generate` returns it (a DB entry plus the added
`"type"` key). -/
structure MedOut where
  name : String
  type : String
  dosage : String
  frequency : String
  duration : String
  instructions : String
  warnings : List String
deriving DecidableEq

/-- `{**med, "type": ty}` for a structured entry. -/
def toMedOut (m : MedEntry) (ty : String) : MedOut :=
  ⟨m.name, ty, m.dosage, m.frequency, m.duration, m.instructions, m.warnings⟩

/-- The fallback record `generate` builds for a bare-string topical; note it
is appended without any allergy check. -/
def defaultTopical (nm : String) : MedOut :=
  ⟨nm, "topical", "As directed", "Daily", "Ongoing", "Apply as directed.", []⟩

/-- The topical loop of `generate`: structured entries are kept only when no
allergy matches; bare strings always become the fallback record. -/
def buildTopical (allergies : List String) : List TopEntry → List MedOut
  | [] => []
  | .entry m :: rest =>
    if anyAllergyMatch allergies m.name then buildTopical allergies rest
    else toMedOut m "topical" :: buildTopical allergies rest
  | .plain s :: rest => defaultTopical s :: buildTopical allergies rest

/-- The oral loop of `generate`: structured entries are filtered on
allergies; a bare string would be skipped (the loop has no else branch). -/
def buildOral (allergies : List String) : List TopEntry → List MedOut
  | [] => []
  | .entry m :: rest =>
    if anyAllergyMatch allergies m.name then buildOral allergies rest
    else toMedOut m "oral" :: buildOral allergies rest
  | .plain _ :: rest => buildOral allergies rest

/-- The `clinical_metadata` fields `generate` reads. -/
structure ClinicalMetadata where
  allergies : List String
  previous_treatments : List String
deriving DecidableEq

/-- The dictionary `NLPPrescriber.generate` returns. -/
structure GeneratedPrescription where
  medications : List MedOut
  lifestyle_recommendations : List String
  follow_up_instructions : String
  reasoning : String
  evidence_references : List String
deriving DecidableEq

/-- The follow-up lookup of `generate` (default: 8 weeks). -/
def followUpFor (severity : String) : String :=
  if severity = "clear" then "Annual skin check. Return if new lesions appear."
  else if severity = "mild" then "Follow up in 8-12 weeks to assess response."
  else if severity = "moderate" then "Follow up in 6-8 weeks. Contact if severe irritation."
  else if severity = "severe" then "Follow up in 4 weeks. Blood work may be needed."
  else if severity = "very_severe" then "Close monitoring required. Follow up in 2 weeks."
  else "Follow up in 8 weeks."

/-- `NLPPrescriber.generate` (the unused `additional_notes` parameter is
dropped).  `TREATMENT_DB.get(severity, TREATMENT_DB["mild"])`, the two
medication loops, the template-filled reasoning string, the follow-up
lookup and the fixed evidence references. -/
def NLPPrescriber.generate (severity : String) (lesion_counts : List (String × ℤ))
    (clinical_metadata : ClinicalMetadata) : GeneratedPrescription :=
  let guidelines := (TREATMENT_DB severity).getD TREATMENT_DB_mild
  let allergies := clinical_metadata.allergies
  let medications := buildTopical allergies guidelines.topical ++ buildOral allergies guidelines.oral
  let total_lesions := (lesion_counts.map fun kv => kv.2).sum
  let reasoning :=
    "Based on " ++ pyUpper severity ++ " acne severity with " ++ toString total_lesions ++
      " total lesions. " ++ "Treatment includes " ++ toString medications.length ++
      " medication(s) following standard guidelines." ++
      (if clinical_metadata.previous_treatments.isEmpty then ""
       else " Previous treatments noted: " ++
         String.intercalate ", " clinical_metadata.previous_treatments ++ ".")
  ⟨medications, guidelines.lifestyle, followUpFor severity, reasoning,
   ["AAD Acne Guidelines 2024", "Global Alliance to Improve Outcomes in Acne"]⟩

/-! ## Translator (`app/ml/translator.py`) -/

/-- `TERMS_EN_TE`, in source (insertion) order. -/
def TERMS_EN_TE : List (String × String) :=
  [("apply", "రాయండి"), ("take", "తీసుకోండి"), ("daily", "రోజూ"),
   ("twice daily", "రోజుకు రెండుసార్లు"), ("once daily", "రోజుకు ఒకసారి"),
   ("at night", "రాత్రి"), ("morning", "ఉదయం"), ("with food", "ఆహారంతో"),
   ("weeks", "వారాలు"), ("months", "నెలలు"), ("thin layer", "పలుచని పొర"),
   ("affected areas", "ప్రభావిత ప్రాంతాలు"), ("cleansing", "శుభ్రం చేయడం"),
   ("avoid sun", "ఎండలో వెళ్ళకండి"), ("sunscreen", "సన్‌స్క్రీన్"),
   ("moisturizer", "మాయిశ్చరైజర్"), ("medication", "మందు"), ("dosage", "మోతాదు"),
   ("warnings", "హెచ్చరికలు"), ("follow-up", "అనుసరణ")]

/-- `BilingualTranslator.translate_text`: identity for `"en"`, otherwise the
text is lower-cased and every dictionary phrase is substituted in order. -/
def BilingualTranslator.translate_text (text : String) (target_language : String) : String :=
  if target_language = "en" then text
  else TERMS_EN_TE.foldl (fun acc p => pyReplace acc (pyLower p.1) p.2) (pyLower text)

/-- A medication dictionary of the Telugu branch of `translate_prescription`. -/
structure TranslatedMed where
  name : String
  name_original : String
  type : String
  dosage : String
  frequency : String
  duration : String
  instructions : String
  warnings : List String
deriving DecidableEq

/-- The per-medication dictionary the Telugu branch builds: the name is kept
verbatim (and copied to `name_original`), the other text fields go through
`translate_text`. -/
def translateMed (m : MedOut) : TranslatedMed :=
  ⟨m.name, m.name,
   if m.type = "topical" then "టాపికల్" else "ఓరల్",
   BilingualTranslator.translate_text m.dosage "te",
   BilingualTranslator.translate_text m.frequency "te",
   BilingualTranslator.translate_text m.duration "te",
   BilingualTranslator.translate_text m.instructions "te",
   m.warnings.map (BilingualTranslator.translate_text · "te")⟩

/-- The two shapes `translate_prescription` returns (the `"en"` branch keeps
the original dictionaries, the other branch returns translated ones). -/
inductive TranslationResult where
  | en (medications : List MedOut) (lifestyle_recommendations : List String)
      (follow_up_instructions : String)
  | te (medications : List TranslatedMed) (lifestyle_recommendations : List String)
      (follow_up_instructions : String)
deriving DecidableEq

/-- `BilingualTranslator.translate_prescription`. -/
def BilingualTranslator.translate_prescription (medications : List MedOut)
    (recommendations : List String) (instructions : String) (target_language : String) :
    TranslationResult :=
  if target_language = "en" then .en medications recommendations instructions
  else .te (medications.map translateMed)
    (recommendations.map (BilingualTranslator.translate_text · "te"))
    (BilingualTranslator.translate_text instructions "te")

/-! ## Urgency (`app/api/diagnosis.py`) -/

/-- `get_urgency`: the severity-to-urgency lookup with default `"routine"`. -/
def get_urgency (severity : String) : String :=
  if severity = "clear" then "routine"
  else if severity = "mild" then "routine"
  else if severity = "moderate" then "soon"
  else if severity = "severe" then "soon"
  else if severity = "very_severe" then "urgent"
  else "routine"

/-! ## Reminders (`app/api/reminders.py`) -/

/-- A persisted reminder row. -/
structure ReminderR where
  id : String
  user_id : String
  prescription_id : Option String
  title : String
  message : String
  message_telugu : Option String
  frequency : String
  times : List String
  status : String
  total_acknowledged : ℤ
deriving DecidableEq

/-- The `ReminderCreate` request body of the create endpoint (no constraint
on `times` beyond being a list of strings). -/
structure ReminderCreate where
  prescription_id : Option String
  title : String
  message : String
  message_telugu : Option String
  frequency : String
  times : List String
deriving DecidableEq

/-- `create_reminder`: the row the create endpoint inserts for the request
(`rid` abstracts the fresh uuid). -/
def create_reminder (req : ReminderCreate) (uid rid : String) : ReminderR :=
  ⟨rid, uid, req.prescription_id, req.title, req.message, req.message_telugu,
   req.frequency, req.times, "active", 0⟩

/-- The frequency classification of `auto_schedule_reminders`: the times
list and frequency tag chosen from the lower-cased frequency text. -/
def scheduleFor (frequency_text : String) : List String × String :=
  let freq := pyLower frequency_text
  if strContains "twice" freq then (["09:00", "21:00"], "twice_daily")
  else if strContains "three" freq then (["09:00", "14:00", "21:00"], "three_times_daily")
  else ((if strContains "night" freq then ["21:00"] else ["09:00"]), "once_daily")

/-- The reminder row `auto_schedule_reminders` inserts for one medication. -/
def medReminder (uid pid rid : String) (m : MedOut) : ReminderR :=
  let sched := scheduleFor m.frequency
  ⟨rid, uid, some pid, "Medication: " ++ m.name,
   "Time to apply/take " ++ m.name ++ ". " ++ m.instructions, none,
   sched.2, sched.1, "active", 0⟩

/-- `auto_schedule_reminders` over a prescription medication list (`rids`
abstracts the stream of fresh uuids). -/
def auto_schedule_reminders (uid pid : String) (meds : List MedOut) (rids : List String) :
    List ReminderR :=
  (meds.zip rids).map fun p => medReminder uid pid p.2 p.1

/-! ## Prescription endpoint (`app/api/prescription.py`) -/

/-- A persisted diagnosis row, restricted to the fields the prescription
endpoint reads. -/
structure DiagnosisR where
  id : String
  user_id : String
  severity : String
  lesion_counts : List (String × ℤ)
  clinical_metadata : ClinicalMetadata
deriving DecidableEq

/-- A persisted prescription row. -/
structure PrescriptionR where
  id : String
  user_id : String
  diagnosis_id : Option String
  severity : String
  medications : List MedOut
  lifestyle_recommendations : List String
  follow_up_instructions : String
  reasoning : String
  status : String
deriving DecidableEq

/-- The response body of the generate endpoint. -/
structure PrescriptionResponse where
  id : String
  diagnosis_id : String
  severity : String
  medications : List MedOut
  lifestyle_recommendations : List String
  follow_up_instructions : String
  reasoning : String
  status : String
deriving DecidableEq

/-- The database state the prescription endpoint touches. -/
structure ServerState where
  diagnoses : List DiagnosisR
  prescriptions : List PrescriptionR
deriving DecidableEq

/-- Endpoint failures: the 404 and SQLAlchemy's error when
`scalar_one_or_none` sees more than one row. -/
inductive ApiError where
  | notFound
  | multipleResults
deriving DecidableEq

/-- `scalar_one_or_none` on the rows a query matched. -/
def scalarOneOrNone {α : Type} (l : List α) : Except ApiError (Option α) :=
  match l with
  | [] => .ok none
  | [x] => .ok (some x)
  | _ => .error .multipleResults

/-- Serialisation of a prescription row into the response body
(`diagnosis_id or ""`). -/
def respOf (p : PrescriptionR) : PrescriptionResponse :=
  ⟨p.id, p.diagnosis_id.getD "", p.severity, p.medications, p.lifestyle_recommendations,
   p.follow_up_instructions, p.reasoning, p.status⟩

/-- `generate_prescription`: look up the diagnosis for this user, return any
existing prescription for the diagnosis unchanged, otherwise build one with
the prescriber and append it (`new_id` abstracts the fresh uuid). -/
def generate_prescription (st : ServerState) (uid diag_id new_id : String) :
    Except ApiError (PrescriptionResponse × ServerState) :=
  match scalarOneOrNone (st.diagnoses.filter fun d => d.id == diag_id && d.user_id == uid) with
  | .error e => .error e
  | .ok none => .error .notFound
  | .ok (some diag) =>
    match scalarOneOrNone
        (st.prescriptions.filter fun p => p.diagnosis_id == some diag_id && p.user_id == uid) with
    | .error e => .error e
    | .ok (some existing) => .ok (respOf existing, st)
    | .ok none =>
      let data := NLPPrescriber.generate diag.severity diag.lesion_counts diag.clinical_metadata
      let p : PrescriptionR :=
        ⟨new_id, uid, some diag_id, diag.severity, data.medications,
         data.lifestyle_recommendations, data.follow_up_instructions, data.reasoning, "generated"⟩
      .ok (respOf p, ⟨st.diagnoses, st.prescriptions ++ [p]⟩)

/-- Every prescription row belongs to a diagnosis row of its own user. -/
def prescriptionsOwned (st : ServerState) : Prop :=
  ∀ p ∈ st.prescriptions, ∃ d ∈ st.diagnoses, some d.id = p.diagnosis_id ∧ d.user_id = p.user_id

/-- Diagnosis ids are pairwise distinct (the primary key). -/
def distinctDiagnosisIds (st : ServerState) : Prop :=
  st.diagnoses.Pairwise fun a b => a.id ≠ b.id

/-- At most one prescription row per diagnosis id. -/
def onePrescriptionPerDiagnosis (l : List PrescriptionR) : Prop :=
  l.Pairwise fun a b => a.diagnosis_id ≠ b.diagnosis_id

/-! ## Helper lemmas -/

lemma pyInt_zero : pyInt 0 = 0 := by
  simp [pyInt]

lemma pyInt_nonneg {q : ℚ} (h : 0 ≤ q) : 0 ≤ pyInt q := by
  rw [pyInt, if_pos h]
  exact Int.floor_nonneg.mpr h

lemma scale_nonneg {variance : ℚ} (h : 0 ≤ variance) : 0 ≤ min (variance / 1000) 1 :=
  le_min (by positivity) zero_le_one

lemma detect_lesions_nonneg (variance : ℚ) (severity : String) (h : 0 ≤ variance) :
    countsNonneg (AcneClassifier.detect_lesions variance severity) := by
  have hs : 0 ≤ min (variance / 1000) 1 := scale_nonneg h
  unfold AcneClassifier.detect_lesions countsNonneg
  dsimp only
  split_ifs <;>
    refine ⟨?_, ?_, ?_, ?_, ?_⟩ <;>
    first
      | exact le_refl 0
      | exact pyInt_nonneg (by positivity)

/-! ## Claim C2 -/

/-- C2: across the five severity labels, ranked clear < mild < moderate <
severe < very_severe, the unscaled base counts of the lesion estimator are
monotonically non-decreasing per lesion type; every base count is
non-negative, and so is every scaled count the estimator returns for a
non-negative image variance. -/
theorem C2_base_counts_monotone (s1 s2 : String) (h1 : s1 ∈ SEVERITY_LABELS)
    (h2 : s2 ∈ SEVERITY_LABELS) (hr : sevRank s1 ≤ sevRank s2) :
    countsLE (baseCounts s1) (baseCounts s2) ∧ countsNonneg (baseCounts s1) ∧
      ∀ variance : ℚ, 0 ≤ variance →
        countsNonneg (AcneClassifier.detect_lesions variance s1) := by
  simp only [SEVERITY_LABELS, List.mem_cons, List.mem_singleton, List.not_mem_nil, or_false] at h1 h2
  rcases h1 with rfl | rfl | rfl | rfl | rfl <;> rcases h2 with rfl | rfl | rfl | rfl | rfl <;>
    first
      | exact absurd hr (by decide)
      | exact ⟨by decide, by decide, fun variance hv => detect_lesions_nonneg variance _ hv⟩

theorem C2_base_counts_monotone_witness :
    countsLE (baseCounts "mild") (baseCounts "severe") ∧ countsNonneg (baseCounts "mild") ∧
      countsNonneg (AcneClassifier.detect_lesions 2000 "mild") := by
  have h := C2_base_counts_monotone "mild" "severe" (by decide) (by decide) (by decide)
  exact ⟨h.1, h.2.1, h.2.2 2000 (by norm_num)⟩

/-! ## Claim C3 -/

/-- C3: for each of the five valid severity labels, `detect_lesions` returns
the fixed base five-tuple of that label (one of five fixed tuples), each
entry scaled by `int(base * min(variance / 1000, 1.0))`, where the image
enters only through its grayscale pixel variance. -/
theorem C3_detect_lesions_is_scaled_table (variance : ℚ) (s : String)
    (hs : s ∈ SEVERITY_LABELS) :
    AcneClassifier.detect_lesions variance s = scaleCounts (baseCounts s) variance ∧
      baseCounts s ∈ [(⟨0, 0, 0, 0, 0⟩ : LesionCounts), ⟨5, 3, 1, 0, 0⟩, ⟨15, 10, 5, 0, 0⟩,
        ⟨25, 20, 15, 3, 0⟩, ⟨30, 25, 20, 10, 5⟩] := by
  simp only [SEVERITY_LABELS, List.mem_cons, List.mem_singleton, List.not_mem_nil, or_false] at hs
  rcases hs with rfl | rfl | rfl | rfl | rfl <;>
    refine ⟨?_, by decide⟩ <;>
    simp [AcneClassifier.detect_lesions, scaleCounts, baseCounts, pyInt_zero]

theorem C3_detect_lesions_is_scaled_table_witness :
    AcneClassifier.detect_lesions 500 "mild" = scaleCounts (baseCounts "mild") 500 ∧
      baseCounts "mild" ∈ [(⟨0, 0, 0, 0, 0⟩ : LesionCounts), ⟨5, 3, 1, 0, 0⟩, ⟨15, 10, 5, 0, 0⟩,
        ⟨25, 20, 15, 3, 0⟩, ⟨30, 25, 20, 10, 5⟩] :=
  C3_detect_lesions_is_scaled_table 500 "mild" (by decide)

/-! ## Claim C5 -/

/-- C5: for a prescription medication whose frequency text contains "twice"
(after lower-casing), the auto-schedule endpoint creates a reminder for it
whose times list is exactly ["09:00", "21:00"] and whose frequency tag is
"twice_daily". -/
theorem C5_twice_daily_schedule (uid pid : String) (meds : List MedOut) (rids : List String)
    (m : MedOut) (rid : String) (hmem : (m, rid) ∈ meds.zip rids)
    (h : strContains "twice" (pyLower m.frequency) = true) :
    medReminder uid pid rid m ∈ auto_schedule_reminders uid pid meds rids ∧
      (medReminder uid pid rid m).times = ["09:00", "21:00"] ∧
      (medReminder uid pid rid m).frequency = "twice_daily" := by
  refine ⟨?_, ?_, ?_⟩
  · unfold auto_schedule_reminders
    exact List.mem_map.mpr ⟨(m, rid), hmem, rfl⟩
  all_goals simp [medReminder, scheduleFor, h]

theorem C5_twice_daily_schedule_witness :
    medReminder "u" "p" "r1" ⟨"Doxycycline 100mg", "oral", "100mg", "Twice daily", "3 months",
        "Take with food and water.", ["Avoid sun", "Not for pregnancy"]⟩ ∈
      auto_schedule_reminders "u" "p"
        [⟨"Doxycycline 100mg", "oral", "100mg", "Twice daily", "3 months",
          "Take with food and water.", ["Avoid sun", "Not for pregnancy"]⟩] ["r1"] ∧
    (medReminder "u" "p" "r1" ⟨"Doxycycline 100mg", "oral", "100mg", "Twice daily", "3 months",
        "Take with food and water.", ["Avoid sun", "Not for pregnancy"]⟩).times =
      ["09:00", "21:00"] ∧
    (medReminder "u" "p" "r1" ⟨"Doxycycline 100mg", "oral", "100mg", "Twice daily", "3 months",
        "Take with food and water.", ["Avoid sun", "Not for pregnancy"]⟩).frequency =
      "twice_daily" :=
  C5_twice_daily_schedule "u" "p" _ _ _ "r1" (by decide) (by decide)

/-! ## Claim C6 -/

/-- C6 counterexample: the auto-scheduler's times lists do not fit in any
set of three fixed lists — four concrete frequency strings produce four
pairwise distinct times lists (the else branch additionally splits on
"night"). -/
theorem C6_counterexample :
    ¬ ∃ t1 t2 t3 : List String, ∀ freq : String,
        (scheduleFor freq).1 = t1 ∨ (scheduleFor freq).1 = t2 ∨ (scheduleFor freq).1 = t3 := by
  rintro ⟨t1, t2, t3, h⟩
  have e1 : (scheduleFor "Twice daily").1 = ["09:00", "21:00"] := by decide
  have e2 : (scheduleFor "Three times daily").1 = ["09:00", "14:00", "21:00"] := by decide
  have e3 : (scheduleFor "Once daily at night").1 = ["21:00"] := by decide
  have e4 : (scheduleFor "Once daily").1 = ["09:00"] := by decide
  have h1 := h "Twice daily"
  have h2 := h "Three times daily"
  have h3 := h "Once daily at night"
  have h4 := h "Once daily"
  rw [e1] at h1
  rw [e2] at h2
  rw [e3] at h3
  rw [e4] at h4
  rcases h1 with h1 | h1 | h1 <;> rcases h2 with h2 | h2 | h2 <;>
    rcases h3 with h3 | h3 | h3 <;> rcases h4 with h4 | h4 | h4 <;> subst_vars <;>
    first
      | exact absurd h2 (by decide)
      | exact absurd h3 (by decide)
      | exact absurd h4 (by decide)

/-- C6 (amended): the auto-scheduler classifies a frequency text by
substring match ("twice", then "three", else split again on "night"), so
the produced times list is always one of four fixed lists, and the tag one
of three fixed tags. -/
theorem C6_times_table : ∀ freq : String,
    (scheduleFor freq).1 ∈
        [["09:00", "21:00"], ["09:00", "14:00", "21:00"], ["21:00"], ["09:00"]] ∧
      (scheduleFor freq).2 ∈ ["twice_daily", "three_times_daily", "once_daily"] := by
  intro freq
  unfold scheduleFor
  dsimp only
  split_ifs <;> simp

/-! ## Claim C7 -/

/-- C7: severity "clear" gives all five lesion counts zero for every image
and urgency "routine"; severity "very_severe" gives urgency "urgent" and
lifestyle recommendations containing mandatory dermatologist care. -/
theorem C7_clear_and_very_severe :
    (∀ variance : ℚ, AcneClassifier.detect_lesions variance "clear" = ⟨0, 0, 0, 0, 0⟩) ∧
      get_urgency "clear" = "routine" ∧ get_urgency "very_severe" = "urgent" ∧
      ∀ (lesion_counts : List (String × ℤ)) (meta : ClinicalMetadata),
        "MANDATORY dermatologist care" ∈
          (NLPPrescriber.generate "very_severe" lesion_counts meta).lifestyle_recommendations := by
  refine ⟨fun variance => by simp [AcneClassifier.detect_lesions], by decide, by decide,
    fun lesion_counts meta => ?_⟩
  simp [NLPPrescriber.generate, TREATMENT_DB, TREATMENT_DB_very_severe]

/-! ## Claim C9 -/

/-- C9 counterexample: the create endpoint performs no check on the request
times, so a request with an empty times list yields a reminder that is
"active" and has no times. -/
theorem C9_counterexample :
    (create_reminder ⟨none, "Medication", "Take it", none, "daily", []⟩ "u1" "r1").status =
        "active" ∧
      (create_reminder ⟨none, "Medication", "Take it", none, "daily", []⟩ "u1" "r1").times = [] :=
  ⟨rfl, rfl⟩

/-- C9 (amended): every reminder produced by the auto-schedule endpoint is
active with a non-empty times list; the create endpoint stores exactly the
requested times with status "active", with no non-emptiness check, so the
invariant holds only for auto-scheduled reminders. -/
theorem C9_active_reminder_times :
    (∀ (uid pid : String) (meds : List MedOut) (rids : List String),
        ∀ r ∈ auto_schedule_reminders uid pid meds rids, r.status = "active" ∧ r.times ≠ []) ∧
      ∀ (req : ReminderCreate) (uid rid : String),
        (create_reminder req uid rid).status = "active" ∧
          (create_reminder req uid rid).times = req.times := by
  constructor
  · intro uid pid meds rids r hr
    simp only [auto_schedule_reminders, List.mem_map] at hr
    obtain ⟨p, _, rfl⟩ := hr
    refine ⟨rfl, ?_⟩
    show (scheduleFor p.1.frequency).1 ≠ []
    unfold scheduleFor
    dsimp only
    split_ifs <;> simp
  · intro req uid rid
    exact ⟨rfl, rfl⟩

/-! ## Claim C10 -/

/-- C10: translating a prescription to "te" maps each medication through
`translateMed`, which keeps the name verbatim (also copying it to
`name_original`) while the dosage, frequency, duration, instructions and
warnings fields all pass through `translate_text`. -/
theorem C10_names_not_translated : ∀ (meds : List MedOut) (recs : List String) (instr : String),
    BilingualTranslator.translate_prescription meds recs instr "te" =
        .te (meds.map translateMed) (recs.map (BilingualTranslator.translate_text · "te"))
          (BilingualTranslator.translate_text instr "te") ∧
      ∀ m : MedOut,
        (translateMed m).name = m.name ∧ (translateMed m).name_original = m.name ∧
          (translateMed m).dosage = BilingualTranslator.translate_text m.dosage "te" ∧
          (translateMed m).frequency = BilingualTranslator.translate_text m.frequency "te" ∧
          (translateMed m).duration = BilingualTranslator.translate_text m.duration "te" ∧
          (translateMed m).instructions = BilingualTranslator.translate_text m.instructions "te" ∧
          (translateMed m).warnings = m.warnings.map (BilingualTranslator.translate_text · "te") := by
  intro meds recs instr
  constructor
  · simp [BilingualTranslator.translate_prescription]
  · intro m
    exact ⟨rfl, rfl, rfl, rfl, rfl, rfl, rfl⟩

/-! ## Claim C1 -/

/-- The structured entries of a `TREATMENT_DB` list, in order. -/
def entriesOf : List TopEntry → List MedEntry
  | [] => []
  | .plain _ :: rest => entriesOf rest
  | .entry m :: rest => m :: entriesOf rest

lemma buildOral_eq (allergies : List String) (l : List TopEntry) :
    buildOral allergies l =
      ((entriesOf l).filter fun m => !anyAllergyMatch allergies m.name).map (toMedOut · "oral") := by
  induction l with
  | nil => rfl
  | cons e rest ih =>
    cases e with
    | plain s => simpa [buildOral, entriesOf] using ih
    | entry m =>
      by_cases h : anyAllergyMatch allergies m.name <;>
        simp [buildOral, entriesOf, h, ih, List.filter_cons]

lemma buildTopical_eq (allergies : List String) (l : List TopEntry)
    (hl : l.all TopEntry.isEntry = true) :
    buildTopical allergies l =
      ((entriesOf l).filter fun m => !anyAllergyMatch allergies m.name).map
        (toMedOut · "topical") := by
  induction l with
  | nil => rfl
  | cons e rest ih =>
    cases e with
    | plain s => simp [List.all_cons, TopEntry.isEntry] at hl
    | entry m =>
      simp only [List.all_cons, Bool.and_eq_true] at hl
      by_cases h : anyAllergyMatch allergies m.name <;>
        simp [buildTopical, entriesOf, h, ih hl.2, List.filter_cons]

lemma mem_filtered_no_match {allergies : List String} {ty : String} {l : List MedEntry}
    {m : MedOut}
    (hm : m ∈ (l.filter fun e => !anyAllergyMatch allergies e.name).map (toMedOut · ty)) :
    anyAllergyMatch allergies m.name = false := by
  simp only [List.mem_map, List.mem_filter, Bool.not_eq_true'] at hm
  obtain ⟨e, ⟨_, hmatch⟩, rfl⟩ := hm
  simpa [toMedOut] using hmatch

lemma anyAllergyMatch_eq_false {allergies : List String} {nm : String}
    (h : anyAllergyMatch allergies nm = false) :
    ∀ a ∈ allergies, strContains (pyLower a) (pyLower nm) = false := by
  intro a ha
  by_contra hne
  rw [Bool.not_eq_false] at hne
  have : anyAllergyMatch allergies nm = true := by
    unfold anyAllergyMatch
    rw [List.any_eq_true]
    exact ⟨a, ha, hne⟩
  rw [h] at this
  cases this

/-- C1 counterexample: for severity "clear" the topical entries are bare
strings and are appended without the allergy check, so declaring the
allergy "Cleanser" still returns the medication "Gentle cleanser", whose
name contains the allergy case-insensitively. -/
theorem C1_counterexample :
    (NLPPrescriber.generate "clear" [] ⟨["Cleanser"], []⟩).medications.any
        (fun m => anyAllergyMatch ["Cleanser"] m.name) = true := by
  decide

/-- C1 (amended): for every severity other than "clear" (whose bare-string
topicals bypass the filter), the returned medication list is exactly the
structured entries of the guideline bucket whose name matches no declared
allergy, so no returned medication name contains any declared allergy
string case-insensitively. -/
theorem C1_allergy_filtering (severity : String) (hs : severity ≠ "clear")
    (lesion_counts : List (String × ℤ)) (meta : ClinicalMetadata) :
    (NLPPrescriber.generate severity lesion_counts meta).medications =
        ((entriesOf ((TREATMENT_DB severity).getD TREATMENT_DB_mild).topical).filter
            fun m => !anyAllergyMatch meta.allergies m.name).map (toMedOut · "topical") ++
          ((entriesOf ((TREATMENT_DB severity).getD TREATMENT_DB_mild).oral).filter
            fun m => !anyAllergyMatch meta.allergies m.name).map (toMedOut · "oral") ∧
      ∀ m ∈ (NLPPrescriber.generate severity lesion_counts meta).medications,
        ∀ a ∈ meta.allergies, strContains (pyLower a) (pyLower m.name) = false := by
  have htop :
      (((TREATMENT_DB severity).getD TREATMENT_DB_mild).topical).all TopEntry.isEntry = true := by
    unfold TREATMENT_DB
    split_ifs with h1 h2 h3 h4 h5
    · exact absurd h1 hs
    all_goals decide
  have hmeds : (NLPPrescriber.generate severity lesion_counts meta).medications =
      buildTopical meta.allergies ((TREATMENT_DB severity).getD TREATMENT_DB_mild).topical ++
        buildOral meta.allergies ((TREATMENT_DB severity).getD TREATMENT_DB_mild).oral := by
    simp [NLPPrescriber.generate]
  refine ⟨by rw [hmeds, buildTopical_eq _ _ htop, buildOral_eq], ?_⟩
  intro m hm a ha
  rw [hmeds] at hm
  rcases List.mem_append.mp hm with h | h
  · rw [buildTopical_eq _ _ htop] at h
    exact anyAllergyMatch_eq_false (mem_filtered_no_match h) a ha
  · rw [buildOral_eq] at h
    exact anyAllergyMatch_eq_false (mem_filtered_no_match h) a ha

theorem C1_allergy_filtering_witness :
    (NLPPrescriber.generate "mild" [] ⟨["salicylic"], []⟩).medications =
        ((entriesOf ((TREATMENT_DB "mild").getD TREATMENT_DB_mild).topical).filter
            fun m => !anyAllergyMatch ["salicylic"] m.name).map (toMedOut · "topical") ++
          ((entriesOf ((TREATMENT_DB "mild").getD TREATMENT_DB_mild).oral).filter
            fun m => !anyAllergyMatch ["salicylic"] m.name).map (toMedOut · "oral") ∧
      ∀ m ∈ (NLPPrescriber.generate "mild" [] ⟨["salicylic"], []⟩).medications,
        ∀ a ∈ (["salicylic"] : List String),
          strContains (pyLower a) (pyLower m.name) = false :=
  C1_allergy_filtering "mild" (by decide) [] ⟨["salicylic"], []⟩

/-! ## Claim C4 -/

lemma classifyFinalize_table : ∀ v ∈ SEVERITY_PROB_TABLE,
    classifyFinalize v =
      (SEVERITY_LABELS.getD (npArgmax v) "", v.getD (npArgmax v) 0 / (1 + 1/100000000)) := by
  intro v hv
  simp only [SEVERITY_PROB_TABLE, List.mem_cons, List.not_mem_nil, or_false] at hv
  rcases hv with rfl | rfl | rfl | rfl | rfl | rfl | rfl <;>
    norm_num [classifyFinalize, normalizeProbs, npArgmax, npArgmaxAux, SEVERITY_LABELS,
      max_def, List.getD]

/-- C4 counterexample: with a model output whose acne-class probability is
0.6, the chosen hand-set vector is [0.01, 0.04, 0.15, 0.35, 0.45] and its
argmax value is 0.45, but the reported confidence is 0.45 divided by the
normalisation denominator 1 + 1e-8, not 0.45 itself. -/
theorem C4_counterexample :
    (AcneClassifier.classify (3/5 :: List.replicate 22 0)).1 = "very_severe" ∧
      (AcneClassifier.classify (3/5 :: List.replicate 22 0)).2 = 45000000/100000001 ∧
      (AcneClassifier.classify (3/5 :: List.replicate 22 0)).2 ≠ 45/100 := by
  have h : AcneClassifier.classify (3/5 :: List.replicate 22 0) =
      ("very_severe", 45000000/100000001) := by
    norm_num [AcneClassifier.classify, severityProbsOf, classifyFinalize, normalizeProbs,
      npArgmax, npArgmaxAux, SEVERITY_LABELS, max_def, List.getD]
  rw [h]
  norm_num

/-- C4 (amended): the acne-class probability (entry 0 of the 23-class
output) is mapped through the six thresholds onto one of the seven hand-set
vectors; the reported severity is the label at the argmax of that vector,
and the reported confidence is the value at that argmax divided by
1 + 1e-8 (the normalisation denominator, since each hand-set vector sums
to exactly 1). -/
theorem C4_threshold_mapping : ∀ disease_probs : List ℚ,
    severityProbsOf (disease_probs.getD 0 0) ∈ SEVERITY_PROB_TABLE ∧
      AcneClassifier.classify disease_probs =
        (SEVERITY_LABELS.getD (npArgmax (severityProbsOf (disease_probs.getD 0 0))) "",
          (severityProbsOf (disease_probs.getD 0 0)).getD
            (npArgmax (severityProbsOf (disease_probs.getD 0 0))) 0 / (1 + 1/100000000)) := by
  intro disease_probs
  have hmem : severityProbsOf (disease_probs.getD 0 0) ∈ SEVERITY_PROB_TABLE := by
    unfold severityProbsOf SEVERITY_PROB_TABLE
    split_ifs <;> simp
  exact ⟨hmem, classifyFinalize_table _ hmem⟩

/-! ## Claim C8 -/

lemma filter_subsingleton {α β : Type} (key : α → β) (k : β) (pred : α → Bool)
    (hkey : ∀ a, pred a = true → key a = k) :
    ∀ l : List α, (l.Pairwise fun a b => key a ≠ key b) →
      l.filter pred = [] ∨ ∃ x, l.filter pred = [x] := by
  intro l hl
  induction l with
  | nil => exact Or.inl rfl
  | cons a rest ih =>
    rw [List.pairwise_cons] at hl
    obtain ⟨ha, hrest⟩ := hl
    by_cases hp : pred a = true
    · right
      refine ⟨a, ?_⟩
      rw [List.filter_cons_of_pos hp]
      have hnil : rest.filter pred = [] := by
        rcases ih hrest with h | ⟨x, hx⟩
        · exact h
        · exfalso
          have hxmem : x ∈ rest.filter pred := hx ▸ List.mem_singleton_self x
          have hx2 := List.mem_filter.mp hxmem
          exact ha x hx2.1 (by rw [hkey a hp, hkey x hx2.2])
      rw [hnil]
    · rw [List.filter_cons_of_neg hp]
      exact ih hrest

/-- C8: under the database invariants (each prescription belongs to a
diagnosis of the same user, diagnosis ids are unique, at most one
prescription per diagnosis id), a successful call of the generate endpoint
preserves the one-prescription-per-diagnosis invariant, and when a
prescription for this diagnosis and user already exists the call returns
exactly that prescription and leaves the database unchanged. -/
theorem C8_generate_idempotent (st : ServerState) (uid diag_id new_id : String)
    (r : PrescriptionResponse) (st' : ServerState)
    (hown : prescriptionsOwned st) (hdiag : distinctDiagnosisIds st)
    (hone : onePrescriptionPerDiagnosis st.prescriptions)
    (hcall : generate_prescription st uid diag_id new_id = .ok (r, st')) :
    onePrescriptionPerDiagnosis st'.prescriptions ∧
      ∀ p ∈ st.prescriptions, p.diagnosis_id = some diag_id → p.user_id = uid →
        st' = st ∧ r = respOf p := by
  unfold prescriptionsOwned at hown
  unfold distinctDiagnosisIds at hdiag
  unfold onePrescriptionPerDiagnosis at hone
  unfold generate_prescription at hcall
  have hkeyD : ∀ a : DiagnosisR, (a.id == diag_id && a.user_id == uid) = true → a.id = diag_id := by
    intro a h
    simp only [Bool.and_eq_true, beq_iff_eq] at h
    exact h.1
  have hkeyP : ∀ a : PrescriptionR,
      (a.diagnosis_id == some diag_id && a.user_id == uid) = true →
        a.diagnosis_id = some diag_id := by
    intro a h
    simp only [Bool.and_eq_true, beq_iff_eq] at h
    exact h.1
  rcases filter_subsingleton DiagnosisR.id diag_id _ hkeyD st.diagnoses hdiag with hD | ⟨d, hD⟩
  · rw [hD] at hcall
    simp [scalarOneOrNone] at hcall
  · rw [hD] at hcall
    have hdmem' : d ∈ st.diagnoses.filter fun d => d.id == diag_id && d.user_id == uid := by
      rw [hD]
      exact List.mem_singleton_self d
    obtain ⟨hdmem, hdpred⟩ := List.mem_filter.mp hdmem'
    simp only [Bool.and_eq_true, beq_iff_eq] at hdpred
    obtain ⟨hdid, hduid⟩ := hdpred
    rcases filter_subsingleton PrescriptionR.diagnosis_id (some diag_id) _ hkeyP
        st.prescriptions hone with hP | ⟨q, hP⟩
    · rw [hP] at hcall
      simp only [scalarOneOrNone, Except.ok.injEq, Prod.mk.injEq] at hcall
      obtain ⟨hr, hst⟩ := hcall
      subst hst
      constructor
      · unfold onePrescriptionPerDiagnosis
        rw [List.pairwise_append]
        refine ⟨hone, List.pairwise_singleton _ _, ?_⟩
        intro q hq q' hq'
        simp only [List.mem_singleton] at hq'
        subst hq'
        intro heq
        by_cases hu : q.user_id = uid
        · have hqf : q ∈ st.prescriptions.filter
              fun p => p.diagnosis_id == some diag_id && p.user_id == uid :=
            List.mem_filter.mpr ⟨hq, by simp [heq, hu]⟩
          rw [hP] at hqf
          cases hqf
        · obtain ⟨d', hd'mem, hd'id, hd'uid⟩ := hown q hq
          have hd'id2 : d'.id = diag_id := Option.some.inj (hd'id.trans heq)
          have hsymm : Symmetric fun a b : DiagnosisR => a.id ≠ b.id :=
            fun _ _ hxy h => hxy h.symm
          have hdd : d' = d := by
            by_contra hne
            exact List.Pairwise.forall hsymm hdiag hd'mem hdmem hne (hd'id2.trans hdid.symm)
          apply hu
          rw [← hd'uid, hdd, hduid]
      · intro p hp hpd hpu
        exfalso
        have hpf : p ∈ st.prescriptions.filter
            fun p => p.diagnosis_id == some diag_id && p.user_id == uid :=
          List.mem_filter.mpr ⟨hp, by simp [hpd, hpu]⟩
        rw [hP] at hpf
        cases hpf
    · rw [hP] at hcall
      simp only [scalarOneOrNone, Except.ok.injEq, Prod.mk.injEq] at hcall
      obtain ⟨hr, hst⟩ := hcall
      subst hst
      refine ⟨hone, ?_⟩
      intro p hp hpd hpu
      have hpq : p = q := by
        have hmem : p ∈ st.prescriptions.filter
            fun p => p.diagnosis_id == some diag_id && p.user_id == uid :=
          List.mem_filter.mpr ⟨hp, by simp [hpd, hpu]⟩
        rw [hP] at hmem
        simpa using hmem
      exact ⟨rfl, by rw [← hr, hpq]⟩

/-- A one-user database with one diagnosis and its prescription. -/
def wMeta : ClinicalMetadata := ⟨[], []⟩

def wDiag : DiagnosisR := ⟨"d1", "u1", "mild", [("comedones", 3)], wMeta⟩

def wPresc : PrescriptionR :=
  ⟨"p1", "u1", some "d1", "mild", [], [], "Follow up in 8-12 weeks to assess response.",
   "Based on MILD acne severity with 3 total lesions.", "generated"⟩

def wState : ServerState := ⟨[wDiag], [wPresc]⟩

theorem C8_generate_idempotent_witness :
    onePrescriptionPerDiagnosis wState.prescriptions ∧
      ∀ p ∈ wState.prescriptions, p.diagnosis_id = some "d1" → p.user_id = "u1" →
        wState = wState ∧ respOf wPresc = respOf p :=
  C8_generate_idempotent wState "u1" "d1" "p9" (respOf wPresc) wState
    (by
      unfold prescriptionsOwned wState
      intro p hp
      simp only [List.mem_singleton] at hp
      subst hp
      exact ⟨wDiag, List.mem_singleton_self _, rfl, rfl⟩)
    (by
      unfold distinctDiagnosisIds wState
      exact List.pairwise_singleton _ _)
    (by
      unfold onePrescriptionPerDiagnosis wState
      exact List.pairwise_singleton _ _)
    (by rfl)
